import Mathlib

/-!
Shallow embedding of the property-rental search backend
(src/services/propertyValidation.ts, src/services/propertyQuery.ts,
src/controllers/propertyController.ts) and proofs about it.

Modelling conventions:
* Dates and numeric ids are `Int` (a JS `Date` is its epoch value).
* A JS number that can be `NaN` (result of `parseInt` / `new Date` on
  garbage) is `Option Int`, `none` standing for `NaN` / Invalid Date.
  All JS comparisons on `NaN` are false, which the `js*` helpers encode.
* JS strings are `List Char` (`Str`), so that all string operations are
  structurally recursive and kernel-computable.
* The Prisma store is a `Database`; a Prisma `where`/`include` block is
  embedded as the corresponding filter over the in-memory lists.
-/

abbrev Str := List Char

/-- JS number that may be NaN: `none` is NaN. -/
abbrev JSNum := Option Int

def jsLt (a b : JSNum) : Bool :=
  match a, b with
  | some x, some y => decide (x < y)
  | _, _ => false

def jsLe (a b : JSNum) : Bool :=
  match a, b with
  | some x, some y => decide (x ≤ y)
  | _, _ => false

def jsGt (a b : JSNum) : Bool :=
  match a, b with
  | some x, some y => decide (y < x)
  | _, _ => false

def jsGe (a b : JSNum) : Bool :=
  match a, b with
  | some x, some y => decide (y ≤ x)
  | _, _ => false

def jsEq (a b : JSNum) : Bool :=
  match a, b with
  | some x, some y => decide (x = y)
  | _, _ => false

/-- A raw request field as the validators see it.
`missing` is an absent or empty (JS-falsy) parameter; `nan` is a present
string that `parseInt` / `new Date` fails to parse; `num n` parses to `n`. -/
inductive RawField where
  | missing : RawField
  | nan : RawField
  | num (n : Int) : RawField
deriving DecidableEq

def RawField.truthy : RawField → Bool
  | .missing => false
  | _ => true

def RawField.parse : RawField → JSNum
  | .num n => some n
  | _ => none

/-! ## Data model (Prisma schema entities used by the claims) -/

structure Booking where
  id : Int
  check_in : Int
  check_out : Int
  status_id : Int
deriving DecidableEq

structure Unavail where
  id : Int
  start_date : Int
  end_date : Int
deriving DecidableEq

structure Rate where
  id : Int
  start_date : Int
  end_date : Int
  price : Int
deriving DecidableEq

structure Picture where
  id : Int
  file_path : Str
  is_main : Bool
deriving DecidableEq

structure Room where
  id : Int
  name : Str
  price : Int
  max_guests : Int
  quantity : Int
  bookings : List Booking
  unavails : List Unavail
  rates : List Rate
deriving DecidableEq

structure Property where
  id : Int
  name : Str
  city_id : Int
  category_name : Option Str
  tenant_id : Str
  created_at : Int
  pictures : List Picture
  rooms : List Room
deriving DecidableEq

structure Database where
  properties : List Property
deriving DecidableEq

/-! ## String helpers (JS split / trim / toLowerCase / includes,
embedded over `List Char` so they compute in the kernel) -/

def toLowerCh (s : Str) : Str := s.map Char.toLower

def trimCh (s : Str) : Str :=
  ((s.dropWhile Char.isWhitespace).reverse.dropWhile Char.isWhitespace).reverse

/-- JS `"a,b,c".split(",")` on char lists. -/
def splitOnComma : Str → List Str
  | [] => [[]]
  | c :: cs =>
    if c = ',' then [] :: splitOnComma cs
    else
      match splitOnComma cs with
      | [] => [[c]]
      | h :: t => (c :: h) :: t

def startsWithSeq : Str → Str → Bool
  | [], _ => true
  | _ :: _, [] => false
  | p :: ps, c :: cs => (p = c) && startsWithSeq ps cs

/-- `containsSeq pat s` : `pat` occurs as a contiguous subsequence of `s`. -/
def containsSeq (pat : Str) : Str → Bool
  | [] => startsWithSeq pat []
  | c :: cs => startsWithSeq pat (c :: cs) || containsSeq pat cs

/-- Case-insensitive substring test (Prisma `contains` + `mode: insensitive`). -/
def containsCI (hay pat : Str) : Bool := containsSeq (toLowerCh pat) (toLowerCh hay)

/-- Lexicographic comparison on char lists (used by the modelled name sort). -/
def lexLeCh : Str → Str → Bool
  | [], _ => true
  | _ :: _, [] => false
  | a :: as, b :: bs =>
    if a.toNat < b.toNat then true
    else if b.toNat < a.toNat then false
    else lexLeCh as bs

def kwName : Str := "name".data
def kwPrice : Str := "price".data
def kwAsc : Str := "asc".data
def kwDesc : Str := "desc".data

/-! ## propertyValidation.ts -/

structure RawSearchParams where
  city_id : RawField
  check_in : RawField
  check_out : RawField
  guests : RawField
  page : RawField
  property_name : Option Str
  category_name : Option Str
  sort_by : Option Str
  sort_order : Option Str
deriving DecidableEq

structure ValidatedSearchParams where
  cityId : JSNum
  guestCount : JSNum
  checkInDate : JSNum
  checkOutDate : JSNum
  pageNumber : Int
  propertyName : Option Str
  categoryName : Option Str
  sortBy : Option Str
  sortOrder : Option Str
deriving DecidableEq

structure RawDetailParams where
  property_id : RawField
  check_in : RawField
  check_out : RawField
  guests : RawField
deriving DecidableEq

structure ValidatedDetailParams where
  propertyId : Int
  guestCount : Int
  checkInDate : Int
  checkOutDate : Int
deriving DecidableEq

/-- JS `parseInt(page) || 1` (NaN, missing and 0 all fall back to 1). -/
def parsePageDefault : RawField → Int
  | .num n => if n = 0 then 1 else n
  | _ => 1

/-- JS `if (s && !valid.includes(s))` : a missing or empty (falsy) optional
string skips the check. -/
def optStringOk (s : Option Str) (valid : List Str) : Bool :=
  match s with
  | none => true
  | some v => if v.isEmpty then true else valid.contains v

/-- `validateSearchParams` from propertyValidation.ts. Today is the current
date at midnight. Note the source parses `city_id`, `guests` and the two
dates WITHOUT any isNaN / invalid-date check, so a `some` result can carry
`none` (NaN) in those fields; invalid dates make both date guards false. -/
def validateSearchParams (p : RawSearchParams) (today : Int) :
    Option ValidatedSearchParams :=
  if !p.city_id.truthy || !p.check_in.truthy || !p.check_out.truthy
      || !p.guests.truthy then none
  else
    let pageNumber := parsePageDefault p.page
    if pageNumber < 1 then none
    else if !optStringOk p.sort_by [kwName, kwPrice] then none
    else if !optStringOk p.sort_order [kwAsc, kwDesc] then none
    else if jsGe p.check_in.parse p.check_out.parse then none
    else if jsLt p.check_in.parse (some today) then none
    else some
      { cityId := p.city_id.parse
        guestCount := p.guests.parse
        checkInDate := p.check_in.parse
        checkOutDate := p.check_out.parse
        pageNumber := pageNumber
        propertyName := p.property_name
        categoryName := p.category_name
        sortBy := p.sort_by
        sortOrder := p.sort_order }

/-- `validateDetailParams` from propertyValidation.ts: unlike the search
validator it checks isNaN / positivity for every numeric field and
invalid-date for both dates, so the result carries plain integers. -/
def validateDetailParams (p : RawDetailParams) (today : Int) :
    Option ValidatedDetailParams :=
  if !p.property_id.truthy || !p.check_in.truthy || !p.check_out.truthy
      || !p.guests.truthy then none
  else
    match p.property_id.parse with
    | none => none
    | some pid =>
      if pid ≤ 0 then none
      else
        match p.guests.parse with
        | none => none
        | some g =>
          if g ≤ 0 then none
          else
            match p.check_in.parse, p.check_out.parse with
            | some ci, some co =>
              if co ≤ ci then none
              else if ci < today then none
              else some { propertyId := pid, guestCount := g,
                          checkInDate := ci, checkOutDate := co }
            | _, _ => none

/-- `validatePagination` from propertyValidation.ts: reject (false) iff the
requested page exceeds totalPages while totalPages is positive. -/
def validatePagination (pageNumber : Int) (totalPages : Nat) : Bool :=
  !(decide ((totalPages : Int) < pageNumber) && decide (0 < totalPages))

/-! ## propertyQuery.ts -/

/-- The category part of the Prisma where clause built by
`buildWhereClause`: single token uses `contains`, several use `in`. -/
inductive CatFilter where
  | containsOne (tok : Str) : CatFilter
  | inSet (toks : List Str) : CatFilter
deriving DecidableEq

structure WhereClause where
  cityId : JSNum
  guestMin : JSNum
  nameContains : Option Str
  categoryFilter : Option CatFilter
deriving DecidableEq

/-- `buildWhereClause` from propertyQuery.ts. -/
def buildWhereClause (v : ValidatedSearchParams) : WhereClause :=
  { cityId := v.cityId
    guestMin := v.guestCount
    nameContains :=
      match v.propertyName with
      | some s => if s.isEmpty then none else some s
      | none => none
    categoryFilter :=
      match v.categoryName with
      | some s =>
        if s.isEmpty then none
        else
          let cats := (splitOnComma s).map trimCh
          if cats.length = 1 then some (CatFilter.containsOne (cats.headD []))
          else some (CatFilter.inSet cats)
      | none => none }

/-- Store-side meaning of the category filter (Prisma `contains` /
`in` with `mode: insensitive`); a null category relation matches nothing. -/
def catFilterMatches : CatFilter → Option Str → Bool
  | CatFilter.containsOne t, some nm => containsCI nm t
  | CatFilter.inSet ts, some nm => ts.any (fun t => toLowerCh t = toLowerCh nm)
  | _, none => false

/-- The room sub-filter used in the where clause and in the nested room
fetch of search and detail: `max_guests >= guestCount AND quantity > 0`. -/
def roomEligible (guestMin : JSNum) (r : Room) : Bool :=
  jsGe (some r.max_guests) guestMin && decide (0 < r.quantity)

/-- Store-side meaning of the whole where clause built by
`buildWhereClause` (Prisma `findMany` filter). -/
def whereMatches (w : WhereClause) (p : Property) : Bool :=
  jsEq (some p.city_id) w.cityId
    && p.rooms.any (roomEligible w.guestMin)
    && (match w.nameContains with
        | some s => containsCI p.name s
        | none => true)
    && (match w.categoryFilter with
        | some f => catFilterMatches f p.category_name
        | none => true)

/-- Booking filter of the nested room include in search and detail:
non-canceled (`status_id != 1`) and `check_in < checkOut AND
check_out > checkIn` (half-open overlap). -/
def searchBookingKept (cin cout : JSNum) (b : Booking) : Bool :=
  !(decide (b.status_id = 1)) && jsLt (some b.check_in) cout
    && jsGt (some b.check_out) cin

/-- Unavailability filter of the nested room include in search and detail:
`start_date < checkOut AND end_date > checkIn` (half-open overlap). -/
def searchUnavailKept (cin cout : JSNum) (u : Unavail) : Bool :=
  jsLt (some u.start_date) cout && jsGt (some u.end_date) cin

/-- Peak-season-rate filter of the nested room include in search and
detail: `start_date <= checkOut AND end_date >= checkIn` (closed test,
unlike bookings and unavailabilities). -/
def searchRateKept (cin cout : JSNum) (pr : Rate) : Bool :=
  jsLe (some pr.start_date) cout && jsGe (some pr.end_date) cin

/-- The nested `include` block shared verbatim by `getAvailableProperties`
and `getPropertyDetail`: pre-filters a room's bookings, unavailabilities
and peak season rates to the query window. -/
def filterRoomRecords (cin cout : JSNum) (r : Room) : Room :=
  { r with
    bookings := r.bookings.filter (searchBookingKept cin cout)
    unavails := r.unavails.filter (searchUnavailKept cin cout)
    rates := r.rates.filter (searchRateKept cin cout) }

/-- `getAvailableProperties` from propertyQuery.ts: Prisma `findMany` with
the built where clause; keeps only main pictures, only eligible rooms, and
pre-filters each room's records to the query window. -/
def getAvailableProperties (db : Database) (v : ValidatedSearchParams) :
    List Property :=
  (db.properties.filter (whereMatches (buildWhereClause v))).map fun p =>
    { p with
      pictures := p.pictures.filter (fun pic => pic.is_main)
      rooms := (p.rooms.filter (roomEligible v.guestCount)).map
        (filterRoomRecords v.checkInDate v.checkOutDate) }

/-- Picture ordering of `getPropertyDetail`: `is_main` desc then `id` asc. -/
def picBefore (a b : Picture) : Prop :=
  (a.is_main = true ∧ b.is_main = false) ∨ (a.is_main = b.is_main ∧ a.id ≤ b.id)

instance : DecidableRel picBefore := fun a b => by
  unfold picBefore; infer_instance

/-- `getPropertyDetail` from propertyQuery.ts: Prisma `findUnique` by id
with the same nested room include as search. -/
def getPropertyDetail (db : Database) (v : ValidatedDetailParams) :
    Option Property :=
  (db.properties.find? (fun p => p.id = v.propertyId)).map fun p =>
    { p with
      pictures := List.insertionSort picBefore p.pictures
      rooms := (p.rooms.filter (roomEligible (some v.guestCount))).map
        (filterRoomRecords (some v.checkInDate) (some v.checkOutDate)) }

/-- The three-way OR window test used by every record filter of
`getPropertyForCalendar`: start in window, or end in window, or the record
spans the whole window. -/
def calRangeKept (s e lo hi : Int) : Bool :=
  (decide (s ≤ lo) && decide (lo ≤ e)) || (decide (s ≤ hi) && decide (hi ≤ e))
    || (decide (lo ≤ s) && decide (e ≤ hi))

/-- Booking filter of the calendar fetch: non-canceled and the OR test. -/
def calBookingKept (s e : Int) (b : Booking) : Bool :=
  !(decide (b.status_id = 1)) && calRangeKept s e b.check_in b.check_out

/-- The per-room record filtering of the calendar fetch. -/
def calFilterRoom (s e : Int) (r : Room) : Room :=
  { r with
    bookings := r.bookings.filter (calBookingKept s e)
    unavails := r.unavails.filter (fun u => calRangeKept s e u.start_date u.end_date)
    rates := r.rates.filter (fun pr => calRangeKept s e pr.start_date pr.end_date) }

/-- `getPropertyForCalendar` from propertyQuery.ts. In the source the
window `[s, e]` is computed from (year, month) by JS `Date` glue (first
day of the month to the last day at 23:59:59); here the computed bounds
are taken as arguments. Rooms are filtered by `quantity > 0` only. -/
def getPropertyForCalendar (db : Database) (propertyId s e : Int) :
    Option Property :=
  (db.properties.find? (fun p => p.id = propertyId)).map fun p =>
    { p with
      rooms := (p.rooms.filter (fun r => decide (0 < r.quantity))).map
        (calFilterRoom s e) }

structure PaginationInfo where
  current_page : Int
  total_pages : Nat
  total_items : Nat
  items_per_page : Nat
  has_next_page : Bool
  has_previous_page : Bool
deriving DecidableEq

structure OwnerEntry where
  property : Property
  room_count : Nat
deriving DecidableEq

structure UserPropertiesResult where
  data : List OwnerEntry
  pagination : PaginationInfo
deriving DecidableEq

/-- `getUserProperties` from propertyQuery.ts: all properties of the
tenant, newest `created_at` first, page size 5, full room and picture
arrays (no availability filtering) plus a `_count.rooms` per property. -/
def getUserProperties (db : Database) (userId : Str) (page : Int) :
    UserPropertiesResult :=
  let owned := db.properties.filter (fun p => p.tenant_id = userId)
  let totalCount := owned.length
  let sorted := List.insertionSort
    (fun a b : Property => b.created_at ≤ a.created_at) owned
  let pageData := (sorted.drop ((page - 1) * 5).toNat).take 5
  { data := pageData.map (fun p => { property := p, room_count := p.rooms.length })
    pagination :=
      { current_page := page
        total_pages := (totalCount + 4) / 5
        total_items := totalCount
        items_per_page := 5
        has_next_page := decide (page < (((totalCount + 4) / 5 : Nat) : Int))
        has_previous_page := decide (1 < page) } }

/-! ## propertyProcessor.ts (not in the provided sources; modelled) -/

structure ProcessedProperty where
  id : Int
  name : Str
  category_name : Option Str
  main_picture : Option Str
  available_rooms : List Room
deriving DecidableEq

/-- Modelled from the spec: `processRoomsAvailability` of
propertyProcessor.ts is missing from the sources; per §4.1/§4.2 it keeps
the rooms passing the visibility test. The fetch has already enforced
`max_guests >= guests`, and the function receives no guest count, so the
modelled test is `quantity > 0`; the per-room booking/unavailability
records are carried alongside untouched (the two-tier semantic). -/
def processRoomsAvailability (p : Property) : List Room :=
  p.rooms.filter (fun r => decide (0 < r.quantity))

/-- Modelled from the spec: `transformPropertyData` of
propertyProcessor.ts is missing from the sources; per §4.2 it builds the
ProcessedProperty with id, name, category name, main picture (first
picture flagged `is_main`, or null) and the eligible rooms. -/
def transformPropertyData (p : Property) (rooms : List Room) :
    ProcessedProperty :=
  { id := p.id
    name := p.name
    category_name := p.category_name
    main_picture := (p.pictures.find? (fun pic => pic.is_main)).map
      (fun pic => pic.file_path)
    available_rooms := rooms }

/-- Representative price of a processed property: minimum room price. -/
def propMinPrice (p : ProcessedProperty) : Int :=
  match p.available_rooms.map (fun r => r.price) with
  | [] => 0
  | h :: t => t.foldl min h

/-- Modelled from the spec: `sortProperties` of propertyProcessor.ts is
missing from the sources; per §4.3 it sorts by name or by representative
price, ascending or descending, and preserves input order when no sort
key is supplied. -/
def sortProperties (ps : List ProcessedProperty)
    (sortBy sortOrder : Option Str) : List ProcessedProperty :=
  if sortBy = some kwName then
    if sortOrder = some kwDesc then
      List.insertionSort (fun a b => lexLeCh b.name a.name = true) ps
    else
      List.insertionSort (fun a b => lexLeCh a.name b.name = true) ps
  else if sortBy = some kwPrice then
    if sortOrder = some kwDesc then
      List.insertionSort (fun a b => propMinPrice b ≤ propMinPrice a) ps
    else
      List.insertionSort (fun a b => propMinPrice a ≤ propMinPrice b) ps
  else ps

structure PaginatedResult where
  data : List ProcessedProperty
  pagination : PaginationInfo
deriving DecidableEq

/-- Modelled from the spec: `applyPagination` of propertyProcessor.ts is
missing from the sources; per §4.3 it uses fixed page size 5, total pages
`ceil(totalItems / 5)`, `hasNextPage = page < totalPages` and
`hasPreviousPage = page > 1` (the same arithmetic `getUserProperties`
in propertyQuery.ts performs inline). -/
def applyPagination (ps : List ProcessedProperty) (page : Int) :
    PaginatedResult :=
  let totalItems := ps.length
  let totalPages := (totalItems + 4) / 5
  { data := (ps.drop ((page - 1) * 5).toNat).take 5
    pagination :=
      { current_page := page
        total_pages := totalPages
        total_items := totalItems
        items_per_page := 5
        has_next_page := decide (page < (totalPages : Int))
        has_previous_page := decide (1 < page) } }

/-- Modelled from the spec: `processPropertyDetail` of
propertyProcessor.ts is missing from the sources; per §4.2 it applies the
same per-room processing and output normalization to a single property. -/
def processPropertyDetail (p : Property) : ProcessedProperty :=
  transformPropertyData p (processRoomsAvailability p)

/-! ## propertyController.ts : the search and detail pipelines -/

inductive SearchOutcome where
  | invalid : SearchOutcome
  | empty (page : Int) : SearchOutcome
  | outOfRange (page : Int) (totalPages : Nat) : SearchOutcome
  | success (data : List ProcessedProperty) (categories : List (Option Str))
      (pagination : PaginationInfo) : SearchOutcome
deriving DecidableEq

def searchFetched (db : Database) (v : ValidatedSearchParams) :
    List Property :=
  getAvailableProperties db v

/-- The controller's processing loop: process each fetched property's
rooms and keep the property only if at least one room survives. -/
def searchProcessed (db : Database) (v : ValidatedSearchParams) :
    List ProcessedProperty :=
  (searchFetched db v).filterMap fun p =>
    let rs := processRoomsAvailability p
    if rs.isEmpty then none else some (transformPropertyData p rs)

def searchSorted (db : Database) (v : ValidatedSearchParams) :
    List ProcessedProperty :=
  sortProperties (searchProcessed db v) v.sortBy v.sortOrder

/-- `searchProperties` of propertyController.ts after validation: empty
signal when nothing survived, pagination, out-of-range check, then the
success payload whose category list maps over ALL fetched properties. -/
def searchAfterValidation (db : Database) (v : ValidatedSearchParams) :
    SearchOutcome :=
  let sorted := searchSorted db v
  if sorted.length = 0 then SearchOutcome.empty v.pageNumber
  else
    let pg := applyPagination sorted v.pageNumber
    if !validatePagination v.pageNumber pg.pagination.total_pages then
      SearchOutcome.outOfRange v.pageNumber pg.pagination.total_pages
    else
      SearchOutcome.success pg.data
        ((searchFetched db v).map (fun p => p.category_name)) pg.pagination

/-- `searchProperties` of propertyController.ts: validation first; a
validation failure produces a 400 response without any store access. -/
def searchPipeline (db : Database) (raw : RawSearchParams) (today : Int) :
    SearchOutcome :=
  match validateSearchParams raw today with
  | none => SearchOutcome.invalid
  | some v => searchAfterValidation db v

inductive DetailOutcome where
  | invalid : DetailOutcome
  | notFound : DetailOutcome
  | noRooms : DetailOutcome
  | found (p : ProcessedProperty) : DetailOutcome
deriving DecidableEq

/-- `getPropertyDetailById` of propertyController.ts. -/
def detailPipeline (db : Database) (raw : RawDetailParams) (today : Int) :
    DetailOutcome :=
  match validateDetailParams raw today with
  | none => DetailOutcome.invalid
  | some v =>
    match getPropertyDetail db v with
    | none => DetailOutcome.notFound
    | some p =>
      let pd := processPropertyDetail p
      if pd.available_rooms.isEmpty then DetailOutcome.noRooms
      else DetailOutcome.found pd

def outData : SearchOutcome → List ProcessedProperty
  | SearchOutcome.success d _ _ => d
  | _ => []

def outCategories : SearchOutcome → List (Option Str)
  | SearchOutcome.success _ cats _ => cats
  | _ => []

def isSuccess : SearchOutcome → Bool
  | SearchOutcome.success _ _ _ => true
  | _ => false

/-! ## Concrete instances used by witnesses and counterexamples -/

/-- A canceled (status 1) booking overlapping the window used below. -/
def cxBooking : Booking := { id := 1, check_in := 5, check_out := 10, status_id := 1 }

def cxRoomB : Room :=
  { id := 1, name := [], price := 100, max_guests := 2, quantity := 1,
    bookings := [cxBooking], unavails := [], rates := [] }

/-- A rate starting exactly at checkout of the window used below. -/
def cxRate : Rate := { id := 1, start_date := 10, end_date := 12, price := 500 }

def cxRoomR : Room :=
  { id := 2, name := [], price := 100, max_guests := 2, quantity := 1,
    bookings := [], unavails := [], rates := [cxRate] }

def wBooking : Booking := { id := 7, check_in := 6, check_out := 9, status_id := 2 }

def wUnavail : Unavail := { id := 7, start_date := 1, end_date := 5 }

def wRate : Rate := { id := 7, start_date := 1, end_date := 2, price := 9 }

def wRoom1 : Room :=
  { id := 3, name := [], price := 100, max_guests := 2, quantity := 1,
    bookings := [wBooking], unavails := [wUnavail], rates := [wRate] }

def w3room : Room :=
  { id := 1, name := [], price := 100, max_guests := 3, quantity := 2,
    bookings := [], unavails := [], rates := [] }

def w3prop : Property :=
  { id := 1, name := [], city_id := 1, category_name := none, tenant_id := [],
    created_at := 0, pictures := [], rooms := [w3room] }

def w3db : Database := { properties := [w3prop] }

def w3v : ValidatedSearchParams :=
  { cityId := some 1, guestCount := some 2, checkInDate := some 10,
    checkOutDate := some 12, pageNumber := 1, propertyName := none,
    categoryName := none, sortBy := none, sortOrder := none }

def w4room : Room :=
  { id := 1, name := [], price := 100, max_guests := 5, quantity := 0,
    bookings := [], unavails := [], rates := [] }

def w4prop : Property :=
  { id := 1, name := [], city_id := 1, category_name := none, tenant_id := [],
    created_at := 0, pictures := [], rooms := [w4room] }

def w4db : Database := { properties := [w4prop] }

def w5v : ValidatedSearchParams :=
  { cityId := some 1, guestCount := some 1, checkInDate := some 10,
    checkOutDate := some 12, pageNumber := 1, propertyName := none,
    categoryName := some ("Villa,Hotel".data), sortBy := none, sortOrder := none }

def w6v : ValidatedSearchParams :=
  { cityId := some 1, guestCount := some 1, checkInDate := some 10,
    checkOutDate := some 12, pageNumber := 1, propertyName := none,
    categoryName := none, sortBy := none, sortOrder := none }

def w6db : Database := { properties := [] }

def w7search : RawSearchParams :=
  { city_id := RawField.num 1, check_in := RawField.num 10,
    check_out := RawField.num 5, guests := RawField.num 2,
    page := RawField.missing, property_name := none, category_name := none,
    sort_by := none, sort_order := none }

def w7detail : RawDetailParams :=
  { property_id := RawField.num 1, check_in := RawField.num 10,
    check_out := RawField.num 5, guests := RawField.num 2 }

/-- Search request whose `guests` is present but unparseable (NaN). -/
def c8raw : RawSearchParams :=
  { city_id := RawField.num 1, check_in := RawField.num 100,
    check_out := RawField.num 101, guests := RawField.nan,
    page := RawField.missing, property_name := none, category_name := none,
    sort_by := none, sort_order := none }

def c8db : Database := { properties := [] }

def w8detail : RawDetailParams :=
  { property_id := RawField.num 1, check_in := RawField.num 100,
    check_out := RawField.num 101, guests := RawField.nan }

def w8search : RawSearchParams :=
  { city_id := RawField.missing, check_in := RawField.num 100,
    check_out := RawField.num 101, guests := RawField.num 2,
    page := RawField.missing, property_name := none, category_name := none,
    sort_by := none, sort_order := none }

def w9room : Room :=
  { id := 1, name := [], price := 100, max_guests := 2, quantity := 1,
    bookings := [], unavails := [], rates := [] }

def w9prop : Property :=
  { id := 1, name := [], city_id := 1, category_name := none,
    tenant_id := "u9".data, created_at := 5, pictures := [], rooms := [w9room] }

def w9db : Database := { properties := [w9prop] }

def w9entry : OwnerEntry := { property := w9prop, room_count := 1 }

/-- Six one-room properties in city 1 with pairwise distinct categories. -/
def c10room (i : Int) : Room :=
  { id := i, name := [], price := 100, max_guests := 2, quantity := 1,
    bookings := [], unavails := [], rates := [] }

def c10prop (i : Int) (cat : Str) : Property :=
  { id := i, name := [], city_id := 1, category_name := some cat,
    tenant_id := [], created_at := i, pictures := [], rooms := [c10room i] }

def c10db : Database :=
  { properties :=
      [c10prop 1 ("CatA".data), c10prop 2 ("CatB".data), c10prop 3 ("CatC".data),
       c10prop 4 ("CatD".data), c10prop 5 ("CatE".data), c10prop 6 ("CatF".data)] }

def c10raw : RawSearchParams :=
  { city_id := RawField.num 1, check_in := RawField.num 100,
    check_out := RawField.num 101, guests := RawField.num 1,
    page := RawField.missing, property_name := none, category_name := none,
    sort_by := none, sort_order := none }

/-! ## Helper lemmas -/

@[simp] theorem filterRoomRecords_quantity (cin cout : JSNum) (r : Room) :
    (filterRoomRecords cin cout r).quantity = r.quantity := rfl

@[simp] theorem filterRoomRecords_max_guests (cin cout : JSNum) (r : Room) :
    (filterRoomRecords cin cout r).max_guests = r.max_guests := rfl

theorem startsWithSeq_iff (p s : Str) : startsWithSeq p s = true ↔ p <+: s := by
  induction p generalizing s with
  | nil => simp [startsWithSeq]
  | cons a as ih =>
    cases s with
    | nil => simp [startsWithSeq]
    | cons b bs => simp [startsWithSeq, List.cons_prefix_cons, ih, and_comm]

theorem containsSeq_iff (p s : Str) : containsSeq p s = true ↔ p <:+: s := by
  induction s with
  | nil => simp [containsSeq, startsWithSeq_iff]
  | cons b bs ih =>
    simp [containsSeq, startsWithSeq_iff, ih, List.infix_cons_iff]

theorem mem_sortProperties {ps : List ProcessedProperty} {sb so : Option Str}
    {e : ProcessedProperty} (h : e ∈ sortProperties ps sb so) : e ∈ ps := by
  unfold sortProperties at h
  split at h
  · split at h <;> exact (List.mem_insertionSort _).mp h
  · split at h
    · split at h <;> exact (List.mem_insertionSort _).mp h
    · exact h

/-- Any successful search validation passes the two date guards and copies
the (possibly NaN) parses of the four mandatory fields unchecked. -/
theorem validateSearchParams_some_spec {p : RawSearchParams} {today : Int}
    {v : ValidatedSearchParams} (h : validateSearchParams p today = some v) :
    jsGe p.check_in.parse p.check_out.parse = false ∧
    jsLt p.check_in.parse (some today) = false ∧
    v.cityId = p.city_id.parse ∧ v.guestCount = p.guests.parse ∧
    v.checkInDate = p.check_in.parse ∧ v.checkOutDate = p.check_out.parse := by
  unfold validateSearchParams at h
  repeat' split at h
  all_goals (try simp_all)
  obtain ⟨-, rfl⟩ := h
  simp

/-- Any successful detail validation has parseable dates in order and not
in the past. -/
theorem validateDetailParams_some_spec {q : RawDetailParams} {today : Int}
    {v : ValidatedDetailParams} (h : validateDetailParams q today = some v) :
    q.check_in.parse = some v.checkInDate ∧
    q.check_out.parse = some v.checkOutDate ∧
    v.checkInDate < v.checkOutDate ∧ today ≤ v.checkInDate := by
  unfold validateDetailParams at h
  repeat' split at h
  all_goals (try simp_all)
  obtain rfl := h
  simp_all

/-! ## Claim C1 -/

/-- Claim C1 counterexample: a CANCELED booking that overlaps the query
window [6, 8) under the half-open test (5 < 8 and 10 > 6) is nevertheless
not fetched by the search/detail room include, so "fetched iff overlaps"
is false as stated. -/
theorem booking_overlap_iff_false_for_canceled :
    (cxBooking.check_in < 8 ∧ 6 < cxBooking.check_out) ∧
    cxBooking ∉ (filterRoomRecords (some 6) (some 8) cxRoomB).bookings := by
  decide

/-- Claim C1 (amended): in the search and detail fetches with window
[cin, cout), an unavailability record is fetched iff it overlaps under the
half-open test, and a booking is fetched iff it is non-canceled AND
overlaps under the half-open test; in particular any record with
end = cin or start = cout is excluded. -/
theorem overlap_halfopen_boundaries (cin cout : Int) (r : Room)
    (b : Booking) (u : Unavail) :
    (b ∈ (filterRoomRecords (some cin) (some cout) r).bookings ↔
      b ∈ r.bookings ∧ b.status_id ≠ 1 ∧ b.check_in < cout ∧ cin < b.check_out)
    ∧ (u ∈ (filterRoomRecords (some cin) (some cout) r).unavails ↔
      u ∈ r.unavails ∧ u.start_date < cout ∧ cin < u.end_date)
    ∧ (u.end_date = cin → u ∉ (filterRoomRecords (some cin) (some cout) r).unavails)
    ∧ (b.check_out = cin → b ∉ (filterRoomRecords (some cin) (some cout) r).bookings)
    ∧ (u.start_date = cout → u ∉ (filterRoomRecords (some cin) (some cout) r).unavails)
    ∧ (b.check_in = cout → b ∉ (filterRoomRecords (some cin) (some cout) r).bookings) := by
  have hb : b ∈ (filterRoomRecords (some cin) (some cout) r).bookings ↔
      b ∈ r.bookings ∧ b.status_id ≠ 1 ∧ b.check_in < cout ∧ cin < b.check_out := by
    simp [filterRoomRecords, List.mem_filter, searchBookingKept, jsLt, jsGt,
      and_assoc]
  have hu : u ∈ (filterRoomRecords (some cin) (some cout) r).unavails ↔
      u ∈ r.unavails ∧ u.start_date < cout ∧ cin < u.end_date := by
    simp [filterRoomRecords, List.mem_filter, searchUnavailKept, jsLt, jsGt,
      and_assoc]
  refine ⟨hb, hu, ?_, ?_, ?_, ?_⟩
  · intro he hm
    rcases hu.mp hm with ⟨-, -, h2⟩
    omega
  · intro he hm
    rcases hb.mp hm with ⟨-, -, -, h3⟩
    omega
  · intro he hm
    rcases hu.mp hm with ⟨-, h1, -⟩
    omega
  · intro he hm
    rcases hb.mp hm with ⟨-, -, h2, -⟩
    omega

/-- Claim C1 witness: the amended theorem applied at a concrete room and
window; a non-canceled booking [6,9) overlapping [5,10) is fetched, and a
unavailability ending exactly at 5 is excluded. -/
theorem overlap_halfopen_boundaries_witness :
    wBooking ∈ (filterRoomRecords (some 5) (some 10) wRoom1).bookings ∧
    wUnavail ∉ (filterRoomRecords (some 5) (some 10) wRoom1).unavails :=
  ⟨(overlap_halfopen_boundaries 5 10 wRoom1 wBooking wUnavail).1.mpr
      ⟨by decide, by decide, by decide, by decide⟩,
   (overlap_halfopen_boundaries 5 10 wRoom1 wBooking wUnavail).2.2.1 (by decide)⟩

/-! ## Claim C2 -/

/-- Claim C2 counterexample: a peak season rate whose start equals the
query end (start 10, window [5, 10)) fails the half-open test
(10 < 10 is false) yet IS fetched by the search/detail room include,
because the rate filter uses the closed test (lte / gte). -/
theorem rate_filter_not_halfopen :
    cxRate ∈ (filterRoomRecords (some 5) (some 10) cxRoomR).rates ∧
    ¬(cxRate.start_date < 10) := by
  decide

/-- Claim C2 (amended): in search and detail, bookings and
unavailabilities are pre-filtered by the half-open test with canceled
bookings excluded, but peak season rates use the CLOSED test
start <= queryEnd AND end >= queryStart; in the calendar fetch all three
record types use a three-way OR window test (equivalent, for well-formed
records and windows, to the closed overlap test), again excluding
canceled bookings. -/
theorem record_prefilters_spec (cin cout s e : Int) (r : Room)
    (b : Booking) (u : Unavail) (pr : Rate) :
    (pr ∈ (filterRoomRecords (some cin) (some cout) r).rates ↔
      pr ∈ r.rates ∧ pr.start_date ≤ cout ∧ cin ≤ pr.end_date)
    ∧ (b.status_id = 1 → b ∉ (filterRoomRecords (some cin) (some cout) r).bookings)
    ∧ (b ∈ (calFilterRoom s e r).bookings ↔
      b ∈ r.bookings ∧ b.status_id ≠ 1 ∧ calRangeKept s e b.check_in b.check_out = true)
    ∧ (u ∈ (calFilterRoom s e r).unavails ↔
      u ∈ r.unavails ∧ calRangeKept s e u.start_date u.end_date = true)
    ∧ (pr ∈ (calFilterRoom s e r).rates ↔
      pr ∈ r.rates ∧ calRangeKept s e pr.start_date pr.end_date = true)
    ∧ (∀ lo hi : Int, lo ≤ hi → s ≤ e →
      (calRangeKept s e lo hi = true ↔ lo ≤ e ∧ s ≤ hi))
    ∧ (b.status_id = 1 → b ∉ (calFilterRoom s e r).bookings) := by
  refine ⟨?_, ?_, ?_, ?_, ?_, ?_, ?_⟩
  · simp [filterRoomRecords, List.mem_filter, searchRateKept, jsLe, jsGe,
      and_assoc]
  · intro hc hm
    simp [filterRoomRecords, List.mem_filter, searchBookingKept, hc] at hm
  · simp [calFilterRoom, List.mem_filter, calBookingKept, and_assoc]
  · simp [calFilterRoom, List.mem_filter]
  · simp [calFilterRoom, List.mem_filter]
  · intro lo hi h1 h2
    simp only [calRangeKept, Bool.or_eq_true, Bool.and_eq_true, decide_eq_true_eq]
    omega
  · intro hc hm
    simp [calFilterRoom, List.mem_filter, calBookingKept, hc] at hm

/-- Claim C2 witness: the amended theorem applied concretely; the rate
[1,2] overlaps window [5,10) under the closed test is false, so it is
out; a rate starting at 10 is kept (closed test), and a canceled booking
is dropped from the calendar fetch. -/
theorem record_prefilters_spec_witness :
    cxRate ∈ (filterRoomRecords (some 5) (some 10) cxRoomR).rates ∧
    cxBooking ∉ (calFilterRoom 0 20 cxRoomB).bookings :=
  ⟨(record_prefilters_spec 5 10 0 20 cxRoomR cxBooking wUnavail cxRate).1.mpr
      ⟨by decide, by decide, by decide⟩,
   (record_prefilters_spec 5 10 0 20 cxRoomB cxBooking wUnavail cxRate).2.2.2.2.2.2
      (by decide)⟩

/-! ## Claim C3 -/

/-- Claim C3: in both the search fetch and the detail fetch, every room
of every returned property has quantity > 0 and max_guests at least the
requested guest count, whatever the date window — so a quantity-0 room or
an undersized room is never returned. -/
theorem room_quantity_guest_gating :
    (∀ (db : Database) (v : ValidatedSearchParams) (g : Int) (P : Property)
      (r : Room), v.guestCount = some g → P ∈ getAvailableProperties db v →
      r ∈ P.rooms → 0 < r.quantity ∧ g ≤ r.max_guests)
    ∧ (∀ (db : Database) (vd : ValidatedDetailParams) (P : Property) (r : Room),
      getPropertyDetail db vd = some P → r ∈ P.rooms →
      0 < r.quantity ∧ vd.guestCount ≤ r.max_guests) := by
  constructor
  · intro db v g P r hg hP hr
    simp only [getAvailableProperties, List.mem_map] at hP
    obtain ⟨p, hp, rfl⟩ := hP
    simp only [List.mem_map, List.mem_filter] at hr
    obtain ⟨r0, ⟨hr0, helig⟩, rfl⟩ := hr
    simp only [roomEligible, hg, jsGe, Bool.and_eq_true, decide_eq_true_eq] at helig
    simpa using And.intro helig.2 helig.1
  · intro db vd P r hP hr
    simp only [getPropertyDetail, Option.map_eq_some'] at hP
    obtain ⟨p, hp, rfl⟩ := hP
    simp only [List.mem_map, List.mem_filter] at hr
    obtain ⟨r0, ⟨hr0, helig⟩, rfl⟩ := hr
    simp only [roomEligible, jsGe, Bool.and_eq_true, decide_eq_true_eq] at helig
    simpa using And.intro helig.2 helig.1

/-- Claim C3 witness: the gating theorem applied to a concrete database,
search params asking for 2 guests, and the room actually returned. -/
theorem room_quantity_guest_gating_witness :
    0 < w3room.quantity ∧ 2 ≤ w3room.max_guests :=
  room_quantity_guest_gating.1 w3db w3v 2 w3prop w3room rfl (by decide) (by decide)

/-! ## Claim C4 -/

theorem searchProcessed_rooms_nonempty {db : Database}
    {v : ValidatedSearchParams} {e : ProcessedProperty}
    (h : e ∈ searchProcessed db v) : e.available_rooms ≠ [] := by
  simp only [searchProcessed, List.mem_filterMap] at h
  obtain ⟨p, hp, hfe⟩ := h
  by_cases hni : (processRoomsAvailability p).isEmpty
  · simp [hni] at hfe
  · simp only [hni, Bool.false_eq_true, if_false, Option.some.injEq] at hfe
    subst hfe
    simpa [transformPropertyData, List.isEmpty_iff] using hni

theorem searchAfterValidation_success_data {db : Database}
    {v : ValidatedSearchParams} {d : List ProcessedProperty}
    {cats : List (Option Str)} {pg : PaginationInfo}
    (h : searchAfterValidation db v = SearchOutcome.success d cats pg) :
    d = (applyPagination (searchSorted db v) v.pageNumber).data := by
  unfold searchAfterValidation at h
  dsimp only at h
  split at h
  · exact absurd h (by simp)
  · split at h
    · exact absurd h (by simp)
    · injection h with h1 h2 h3
      exact h1.symm

/-- Claim C4: a property whose every room fails the eligibility test
(quantity > 0 and max_guests >= guests) fails the built where clause even
when city, name and category all match, hence is not among the fetched
candidates and contributes nothing; and every entry of a successful
search response has a non-empty room list. -/
theorem property_dropping :
    (∀ (db : Database) (v : ValidatedSearchParams) (g : Int) (p : Property),
      v.guestCount = some g →
      (∀ r ∈ p.rooms, ¬(0 < r.quantity ∧ g ≤ r.max_guests)) →
      whereMatches (buildWhereClause v) p = false ∧
      p ∉ db.properties.filter (whereMatches (buildWhereClause v)))
    ∧ (∀ (db : Database) (raw : RawSearchParams) (today : Int)
      (d : List ProcessedProperty) (cats : List (Option Str))
      (pg : PaginationInfo),
      searchPipeline db raw today = SearchOutcome.success d cats pg →
      ∀ e ∈ d, e.available_rooms ≠ []) := by
  constructor
  · intro db v g p hg hfail
    have hany : p.rooms.any (roomEligible (buildWhereClause v).guestMin) = false := by
      cases hb : p.rooms.any (roomEligible (buildWhereClause v).guestMin)
      · rfl
      · rw [List.any_eq_true] at hb
        obtain ⟨r, hr, helig⟩ := hb
        have hgm : (buildWhereClause v).guestMin = some g := by
          simp [buildWhereClause, hg]
        simp only [roomEligible, hgm, jsGe, Bool.and_eq_true, decide_eq_true_eq]
          at helig
        exact absurd ⟨helig.2, helig.1⟩ (hfail r hr)
    have hw : whereMatches (buildWhereClause v) p = false := by
      simp [whereMatches, hany]
    refine ⟨hw, ?_⟩
    intro hm
    rw [List.mem_filter] at hm
    rw [hw] at hm
    exact absurd hm.2 (by simp)
  · intro db raw today d cats pg h e he
    unfold searchPipeline at h
    cases hval : validateSearchParams raw today with
    | none => rw [hval] at h; exact absurd h (by simp)
    | some v =>
      rw [hval] at h
      have hd := searchAfterValidation_success_data h
      subst hd
      simp only [applyPagination] at he
      have h1 : e ∈ searchSorted db v :=
        List.mem_of_mem_drop (List.mem_of_mem_take he)
      exact searchProcessed_rooms_nonempty (mem_sortProperties h1)

/-- Claim C4 witness: the dropping theorem applied to a property whose
only room has quantity 0: it fails the where clause and is absent from
the candidate list of a concrete database. -/
theorem property_dropping_witness :
    whereMatches (buildWhereClause w3v) w4prop = false ∧
    w4prop ∉ w4db.properties.filter (whereMatches (buildWhereClause w3v)) :=
  property_dropping.1 w4db w3v 2 w4prop rfl (by decide)

/-! ## Claim C5 -/

/-- Claim C5: with a non-empty category_name criterion, one token makes
`buildWhereClause` emit a case-insensitive `contains` filter whose store
semantics is substring containment, while several comma-separated tokens
emit a case-insensitive `in` filter whose store semantics is exact
membership in the token set (no substring matching). -/
theorem category_filter_asymmetry :
    (∀ (v : ValidatedSearchParams) (s : Str), v.categoryName = some s →
      s ≠ [] → ((splitOnComma s).map trimCh).length = 1 →
      (buildWhereClause v).categoryFilter =
        some (CatFilter.containsOne (((splitOnComma s).map trimCh).headD [])) ∧
      ∀ nm : Str,
        catFilterMatches
            (CatFilter.containsOne (((splitOnComma s).map trimCh).headD []))
            (some nm) = true ↔
          toLowerCh (((splitOnComma s).map trimCh).headD []) <:+: toLowerCh nm)
    ∧ (∀ (v : ValidatedSearchParams) (s : Str), v.categoryName = some s →
      s ≠ [] → ((splitOnComma s).map trimCh).length ≠ 1 →
      (buildWhereClause v).categoryFilter =
        some (CatFilter.inSet ((splitOnComma s).map trimCh)) ∧
      ∀ nm : Str,
        catFilterMatches (CatFilter.inSet ((splitOnComma s).map trimCh))
            (some nm) = true ↔
          ∃ t ∈ (splitOnComma s).map trimCh, toLowerCh t = toLowerCh nm) := by
  constructor
  · intro v s hv hne hlen
    simp only [List.length_map] at hlen
    refine ⟨?_, ?_⟩
    · simp [buildWhereClause, hv, List.isEmpty_iff, hne, hlen]
    · intro nm
      simp [catFilterMatches, containsCI, containsSeq_iff]
  · intro v s hv hne hlen
    simp only [List.length_map] at hlen
    refine ⟨?_, ?_⟩
    · simp [buildWhereClause, hv, List.isEmpty_iff, hne, hlen]
    · intro nm
      simp [catFilterMatches, List.any_eq_true]

/-- Claim C5 witness: with category_name "Villa,Hotel" (two tokens) the
built filter is the exact-membership one over the trimmed token set. -/
theorem category_filter_asymmetry_witness :
    (buildWhereClause w5v).categoryFilter =
      some (CatFilter.inSet ((splitOnComma ("Villa,Hotel".data)).map trimCh)) :=
  (category_filter_asymmetry.2 w5v ("Villa,Hotel".data) rfl (by decide)
    (by decide)).1

/-! ## Claim C6 -/

/-- Claim C6: with page size 5, total_pages is exactly
ceil(totalItems / 5) (characterized as the least m with
totalItems <= 5 * m), the has-next/has-previous flags follow the spec
formulas, an empty sorted list short-circuits to the empty-result signal
before any pagination check, and a non-empty result with a page beyond
total_pages produces the explicit out-of-range signal. -/
theorem search_pagination_math :
    (∀ (ps : List ProcessedProperty) (page : Int) (m : Nat),
      ps.length ≤ 5 * m ↔ (applyPagination ps page).pagination.total_pages ≤ m)
    ∧ (∀ (ps : List ProcessedProperty) (page : Int),
      (applyPagination ps page).pagination.items_per_page = 5 ∧
      (applyPagination ps page).pagination.has_next_page =
        decide (page < ((applyPagination ps page).pagination.total_pages : Int)) ∧
      (applyPagination ps page).pagination.has_previous_page = decide (1 < page))
    ∧ (∀ (db : Database) (v : ValidatedSearchParams),
      searchSorted db v = [] →
      searchAfterValidation db v = SearchOutcome.empty v.pageNumber)
    ∧ (∀ (db : Database) (v : ValidatedSearchParams),
      searchSorted db v ≠ [] →
      (((applyPagination (searchSorted db v) v.pageNumber).pagination.total_pages : Int)
          < v.pageNumber) →
      searchAfterValidation db v =
        SearchOutcome.outOfRange v.pageNumber
          (applyPagination (searchSorted db v) v.pageNumber).pagination.total_pages) := by
  refine ⟨?_, ?_, ?_, ?_⟩
  · intro ps page m
    simp only [applyPagination]
    rw [Nat.div_le_iff_le_mul_add_pred (by norm_num)]
    omega
  · intro ps page
    simp [applyPagination]
  · intro db v h
    simp [searchAfterValidation, h]
  · intro db v hne hgt
    have hlen : ¬((searchSorted db v).length = 0) := by
      simpa [List.length_eq_zero] using hne
    have hpos : 0 < (applyPagination (searchSorted db v) v.pageNumber).pagination.total_pages := by
      simp only [applyPagination]
      have h5 : (5 : Nat) * 1 ≤ (searchSorted db v).length + 4 := by omega
      exact Nat.le_div_iff_mul_le (by norm_num) |>.mpr (by omega)
    have hval : validatePagination v.pageNumber
        (applyPagination (searchSorted db v) v.pageNumber).pagination.total_pages = false := by
      simp only [validatePagination, Bool.not_eq_false', Bool.and_eq_true,
        decide_eq_true_eq]
      exact ⟨hgt, hpos⟩
    unfold searchAfterValidation
    dsimp only
    rw [if_neg hlen, hval]
    simp

/-- Claim C6 witness: the pagination theorem applied concretely; an empty
database gives the empty-result signal on page 1, and 12 items give
total_pages bounded by 3. -/
theorem search_pagination_math_witness :
    searchAfterValidation w6db w6v = SearchOutcome.empty 1 ∧
    (applyPagination (List.replicate 12 (transformPropertyData w3prop []))
        3).pagination.total_pages ≤ 3 :=
  ⟨search_pagination_math.2.2.1 w6db w6v (by decide),
   (search_pagination_math.1 (List.replicate 12 (transformPropertyData w3prop []))
      3 3).mp (by simp)⟩

/-! ## Claim C7 -/

/-- Claim C7: for search and detail alike, a request whose parsed dates
satisfy checkIn >= checkOut is rejected by the validator, and so is one
with checkIn before today; in either case the whole pipeline returns the
validation-error outcome identically for EVERY database, i.e. before any
store access or availability computation. -/
theorem date_order_validation :
    ∀ (p : RawSearchParams) (q : RawDetailParams) (today ci co : Int),
    p.check_in = RawField.num ci → p.check_out = RawField.num co →
    q.check_in = RawField.num ci → q.check_out = RawField.num co →
    ((co ≤ ci →
      validateSearchParams p today = none ∧ validateDetailParams q today = none ∧
      (∀ db : Database, searchPipeline db p today = SearchOutcome.invalid) ∧
      (∀ db : Database, detailPipeline db q today = DetailOutcome.invalid))
    ∧ (ci < today →
      validateSearchParams p today = none ∧ validateDetailParams q today = none ∧
      (∀ db : Database, searchPipeline db p today = SearchOutcome.invalid) ∧
      (∀ db : Database, detailPipeline db q today = DetailOutcome.invalid))) := by
  intro p q today ci co hp1 hp2 hq1 hq2
  have hs1 : co ≤ ci → validateSearchParams p today = none := by
    intro hcc
    cases h : validateSearchParams p today with
    | none => rfl
    | some v =>
      obtain ⟨hge, -, -, -, -, -⟩ := validateSearchParams_some_spec h
      rw [hp1, hp2] at hge
      simp only [RawField.parse, jsGe, decide_eq_false_iff_not] at hge
      omega
  have hs2 : ci < today → validateSearchParams p today = none := by
    intro hcc
    cases h : validateSearchParams p today with
    | none => rfl
    | some v =>
      obtain ⟨-, hlt, -, -, -, -⟩ := validateSearchParams_some_spec h
      rw [hp1] at hlt
      simp only [RawField.parse, jsLt, decide_eq_false_iff_not] at hlt
      omega
  have hd1 : co ≤ ci → validateDetailParams q today = none := by
    intro hcc
    cases h : validateDetailParams q today with
    | none => rfl
    | some v =>
      obtain ⟨hci, hco, hlt, -⟩ := validateDetailParams_some_spec h
      rw [hq1] at hci
      rw [hq2] at hco
      simp only [RawField.parse, Option.some.injEq] at hci hco
      omega
  have hd2 : ci < today → validateDetailParams q today = none := by
    intro hcc
    cases h : validateDetailParams q today with
    | none => rfl
    | some v =>
      obtain ⟨hci, -, -, hpast⟩ := validateDetailParams_some_spec h
      rw [hq1] at hci
      simp only [RawField.parse, Option.some.injEq] at hci
      omega
  constructor
  · intro hcc
    refine ⟨hs1 hcc, hd1 hcc, ?_, ?_⟩
    · intro db
      simp [searchPipeline, hs1 hcc]
    · intro db
      simp [detailPipeline, hd1 hcc]
  · intro hcc
    refine ⟨hs2 hcc, hd2 hcc, ?_, ?_⟩
    · intro db
      simp [searchPipeline, hs2 hcc]
    · intro db
      simp [detailPipeline, hd2 hcc]

/-- Claim C7 witness: a concrete request with check-in 10 and check-out 5
is rejected by both validators. -/
theorem date_order_validation_witness :
    validateSearchParams w7search 0 = none ∧ validateDetailParams w7detail 0 = none :=
  ⟨((date_order_validation w7search w7detail 0 10 5 rfl rfl rfl rfl).1
      (by decide)).1,
   ((date_order_validation w7search w7detail 0 10 5 rfl rfl rfl rfl).1
      (by decide)).2.1⟩

/-! ## Claim C8 -/

/-- Claim C8 counterexample: a search request whose `guests` parameter is
present but unparseable (NaN) passes validation — the validator returns a
validated record carrying NaN as the guest count — and the pipeline
proceeds past validation (here to the empty-result signal), instead of
being rejected at validation as the claim states. -/
theorem unparseable_guests_passes_search_validation :
    validateSearchParams c8raw 50 =
      some { cityId := some 1, guestCount := none, checkInDate := some 100,
             checkOutDate := some 101, pageNumber := 1, propertyName := none,
             categoryName := none, sortBy := none, sortOrder := none } ∧
    searchPipeline c8db c8raw 50 = SearchOutcome.empty 1 := by
  constructor
  · rfl
  · rfl

/-- Claim C8 (amended): the DETAIL validator rejects every request whose
property_id, guests, check_in or check_out is present but unparseable,
and the search validator rejects missing mandatory parameters, but the
search validator copies the parses of city_id, guests and the dates into
the validated record without any parse-failure check. -/
theorem malformed_input_validation :
    ∀ (q : RawDetailParams) (p : RawSearchParams) (today : Int),
    (q.property_id = RawField.nan → validateDetailParams q today = none)
    ∧ (q.guests = RawField.nan → validateDetailParams q today = none)
    ∧ (q.check_in = RawField.nan → validateDetailParams q today = none)
    ∧ (q.check_out = RawField.nan → validateDetailParams q today = none)
    ∧ ((p.city_id = RawField.missing ∨ p.check_in = RawField.missing ∨
        p.check_out = RawField.missing ∨ p.guests = RawField.missing) →
        validateSearchParams p today = none)
    ∧ (∀ v, validateSearchParams p today = some v →
        v.cityId = p.city_id.parse ∧ v.guestCount = p.guests.parse ∧
        v.checkInDate = p.check_in.parse ∧ v.checkOutDate = p.check_out.parse) := by
  intro q p today
  have hdetail : ∀ h : RawDetailParams → RawField,
      (h = fun x => x.property_id) ∨ (h = fun x => x.guests) ∨
      (h = fun x => x.check_in) ∨ (h = fun x => x.check_out) →
      h q = RawField.nan → validateDetailParams q today = none := by
    intro h hh hnan
    cases hval : validateDetailParams q today with
    | none => rfl
    | some v =>
      exfalso
      obtain ⟨hci, hco, -, -⟩ := validateDetailParams_some_spec hval
      unfold validateDetailParams at hval
      repeat' split at hval
      all_goals
        rcases hh with rfl | rfl | rfl | rfl <;> simp_all [RawField.parse]
  refine ⟨?_, ?_, ?_, ?_, ?_, ?_⟩
  · exact hdetail (fun x => x.property_id) (Or.inl rfl)
  · exact hdetail (fun x => x.guests) (Or.inr (Or.inl rfl))
  · exact hdetail (fun x => x.check_in) (Or.inr (Or.inr (Or.inl rfl)))
  · exact hdetail (fun x => x.check_out) (Or.inr (Or.inr (Or.inr rfl)))
  · intro hmiss
    unfold validateSearchParams
    rcases hmiss with h | h | h | h <;> simp [h, RawField.truthy]
  · intro v hv
    obtain ⟨-, -, h1, h2, h3, h4⟩ := validateSearchParams_some_spec hv
    exact ⟨h1, h2, h3, h4⟩

/-- Claim C8 witness: the amended theorem applied concretely — a detail
request with unparseable guests is rejected, a search request with a
missing city_id is rejected. -/
theorem malformed_input_validation_witness :
    validateDetailParams w8detail 0 = none ∧
    validateSearchParams w8search 0 = none :=
  ⟨(malformed_input_validation w8detail w8search 0).2.1 rfl,
   (malformed_input_validation w8detail w8search 0).2.2.2.2.1 (Or.inl rfl)⟩

/-! ## Claim C9 -/

/-- Claim C9: the owner-scoped listing returns only the given tenant's
properties, each carried whole (full room and picture arrays untouched by
any availability filtering) with a room count equal to the length of its
room array; the page holds at most 5 items ordered newest-created-first,
and the pagination block uses page size 5, total_items = the tenant's
property count and total_pages = ceil(total_items / 5) with the spec
has-next / has-previous formulas. -/
theorem owner_listing_spec :
    ∀ (db : Database) (uid : Str) (page : Int),
    (∀ e ∈ (getUserProperties db uid page).data,
      e.property.tenant_id = uid ∧ e.property ∈ db.properties ∧
      e.room_count = e.property.rooms.length)
    ∧ ((getUserProperties db uid page).data.map
        (fun e => e.property.created_at)).Pairwise (fun a b => b ≤ a)
    ∧ (getUserProperties db uid page).data.length ≤ 5
    ∧ (getUserProperties db uid page).pagination.items_per_page = 5
    ∧ (getUserProperties db uid page).pagination.total_items =
        (db.properties.filter (fun p => p.tenant_id = uid)).length
    ∧ (∀ m : Nat, (getUserProperties db uid page).pagination.total_items ≤ 5 * m ↔
        (getUserProperties db uid page).pagination.total_pages ≤ m)
    ∧ (getUserProperties db uid page).pagination.has_next_page =
        decide (page < ((getUserProperties db uid page).pagination.total_pages : Int))
    ∧ (getUserProperties db uid page).pagination.has_previous_page =
        decide (1 < page) := by
  intro db uid page
  refine ⟨?_, ?_, ?_, ?_, ?_, ?_, ?_, ?_⟩
  · intro e he
    simp only [getUserProperties, List.mem_map] at he
    obtain ⟨p, hp, rfl⟩ := he
    have hp2 : p ∈ db.properties.filter (fun p => p.tenant_id = uid) :=
      (List.mem_insertionSort _).mp
        (List.mem_of_mem_drop (List.mem_of_mem_take hp))
    rw [List.mem_filter] at hp2
    refine ⟨by simpa using hp2.2, hp2.1, rfl⟩
  · simp only [getUserProperties, List.map_map]
    have hsorted : List.Sorted (fun a b : Property => b.created_at ≤ a.created_at)
        (List.insertionSort (fun a b : Property => b.created_at ≤ a.created_at)
          (db.properties.filter (fun p => p.tenant_id = uid))) := by
      haveI : IsTotal Property (fun a b : Property => b.created_at ≤ a.created_at) :=
        ⟨fun a b => le_total b.created_at a.created_at⟩
      haveI : IsTrans Property (fun a b : Property => b.created_at ≤ a.created_at) :=
        ⟨fun a b c hab hbc => le_trans hbc hab⟩
      exact List.sorted_insertionSort _ _
    have hsub : List.Sublist
        (((List.insertionSort
          (fun a b : Property => b.created_at ≤ a.created_at)
          (db.properties.filter (fun p => p.tenant_id = uid))).drop
            ((page - 1) * 5).toNat).take 5)
        (List.insertionSort (fun a b : Property => b.created_at ≤ a.created_at)
          (db.properties.filter (fun p => p.tenant_id = uid))) :=
      (List.take_sublist _ _).trans (List.drop_sublist _ _)
    exact List.Pairwise.map _ (fun a b h => h) (hsorted.sublist hsub)
  · simp only [getUserProperties, List.length_map]
    exact (List.length_take_le _ _)
  · rfl
  · rfl
  · intro m
    simp only [getUserProperties]
    rw [Nat.div_le_iff_le_mul_add_pred (by norm_num)]
    omega
  · rfl
  · rfl

/-- Claim C9 witness: the owner-listing theorem applied to a concrete
single-property database and the entry it actually returns. -/
theorem owner_listing_spec_witness :
    w9entry.property.tenant_id = "u9".data ∧
    w9entry.property ∈ w9db.properties ∧
    w9entry.room_count = w9entry.property.rooms.length :=
  (owner_listing_spec w9db ("u9".data) 1).1 w9entry (by decide)

/-! ## Claim C10 -/

/-- Claim C10: the success response's category list is the map of
`category_name` over ALL fetched candidates, so with six eligible
one-room properties and page size 5 the response names the sixth
property's category ("CatF") although no entry of the returned data
array has it. -/
theorem categories_cover_offpage_properties :
    isSuccess (searchPipeline c10db c10raw 0) = true ∧
    (some ("CatF".data)) ∈ outCategories (searchPipeline c10db c10raw 0) ∧
    (outData (searchPipeline c10db c10raw 0)).all
      (fun e => e.category_name ≠ some ("CatF".data)) = true ∧
    outCategories (searchPipeline c10db c10raw 0) =
      (searchFetched c10db
        { cityId := some 1, guestCount := some 1, checkInDate := some 100,
          checkOutDate := some 101, pageNumber := 1, propertyName := none,
          categoryName := none, sortBy := none, sortOrder := none }).map
        (fun p => p.category_name) := by
  refine ⟨by decide, by decide, by decide, by decide⟩
